import Mathlib

/-
Verification of the Logger repository's channel-protocol client
(`src/lib/Logger/src/LoggerClient.h`, `src/lib/ESPPhoenixSocket/src/ESPPhoenixSocket.h`,
`src/lib/Logger/src/Logger.h`).

The C++ code is shallowly embedded: each member function becomes a Lean
function on an explicit state record; `millis()` becomes an explicit `now`
parameter; machine integers (`uint32_t`, `uint64_t`, `int`) are `Nat`/`Int`
with explicit `% 2^32` / `% 2^64` reductions exactly where C++ overflow or
conversion occurs; callback invocations and outbound socket frames become an
explicit list of `Effect`s produced by each step.  JSON parsing is an
external collaborator (ArduinoJson); a parsed inbound frame is therefore
modelled by the fields the code actually extracts from the document.
-/

namespace Logger

/-- Modulus of `uint32_t` arithmetic. -/
def U32 : Nat := 4294967296

/-- Modulus of `uint64_t` arithmetic. -/
def U64 : Nat := 18446744073709551616

/-- Wrapping `uint32_t` subtraction `a - b` (C++ unsigned arithmetic). -/
def wsub32 (a b : Nat) : Nat := (a % U32 + U32 - b % U32) % U32

/-- Wrapping `uint64_t` subtraction `a - b` (C++ unsigned arithmetic). -/
def wsub64 (a b : Nat) : Nat := (a % U64 + U64 - b % U64) % U64

/-- `REJOIN_INTERVAL` from LoggerClient.h: join-attempt cooldown in ms. -/
def REJOIN_INTERVAL : Nat := 5000

/-- `ONE_DAY` from Logger.h: 86400000 ms, the clock re-basing threshold. -/
def ONE_DAY : Nat := 86400000

/-- `MAX_SENSOR_INTERVAL` from Logger.h (seconds). -/
def MAX_SENSOR_INTERVAL : Int := 1800

/-- `MIN_SENSOR_INTERVAL` from Logger.h (seconds). -/
def MIN_SENSOR_INTERVAL : Int := 10

/-- The fields of a `phx_reply` payload's `response` object that
`LoggerClient::_handleReply` extracts via ArduinoJson.  `groupId` is `some`
exactly when `response["group_id"].is<uint64_t>()` holds; `sensorsIds` is
`some` exactly when `response["sensors_ids"].as<JsonArray>()` is non-null
(the code reads key "sensors_ids"); `timestamp` is `some` exactly when
`response["timestamp"].is<uint32_t>()` holds. -/
structure Response where
  reason : Option String
  groupId : Option Nat
  sensorsIds : Option (List String)
  timestamp : Option Nat
deriving Repr, DecidableEq

/-- An inbound websocket text frame, after the external JSON codec ran:
either invalid JSON (`malformed`, carrying the decoder's error text), or a
parsed document with its optional `topic`, `event` and `ref` fields (absent
or non-string keys decode to null, modelled as `none`) and the reply
response object.  `ref` is carried on the wire but never read by the code. -/
inductive Inbound
  | malformed (err : String)
  | frame (topic : Option String) (event : Option String)
      (ref : Option String) (response : Response)
deriving Repr, DecidableEq

/-- Observable effects of one step: an outbound frame handed to
`WebSocketsClient::sendTXT` (with the ref stamped into its envelope), an
invocation of the registered after-join callback, of the generic message
callback, or of the error callback. -/
inductive Effect
  | send (topic event : String) (ref : Nat)
  | afterJoin (groupId : Nat) (ids : List String)
  | message (topic event : String)
  | reply (topic event : String)
  | error (msg : String)
deriving Repr, DecidableEq

/-- Combined state of one `LoggerClient` and its owned `PhoenixSocket`.
`lastJoin` and `lastSyncAttempt` are the function-local `static` variables
of `joinChannel` / `getUnix`; `refCounter` is the socket's `_ref_counter`
(`uint32_t`); `afterJoinSet` records whether `_afterJoinCallback` holds a
callable. -/
structure ClientState where
  channel : String
  joinString : String
  afterJoinSet : Bool
  channelJoined : Bool
  unix : Nat
  lastUnix : Nat
  lastRef : Nat
  lastJoin : Nat
  lastSyncAttempt : Nat
  refCounter : Nat
deriving Repr, DecidableEq

/-- `PhoenixSocket::_getNextRef`: `return ++_ref_counter;` on a `uint32_t`
counter.  Returns the issued ref and the new counter value (equal). -/
def getNextRef (c : Nat) : Nat × Nat :=
  let r := (c + 1) % U32
  (r, r)

/-- `PhoenixSocket::_sendJsonMessage` / `sendEvent`: stamps the next ref
into the envelope and sends one frame.  Returns the ref, the new state and
the emitted frame. -/
def sendJsonMessage (s : ClientState) (topic event : String) :
    Nat × ClientState × List Effect :=
  let p := getNextRef s.refCounter
  (p.1, { s with refCounter := p.2 }, [Effect.send topic event p.1])

/-- `PhoenixSocket::joinChannel` / `_sendJoinMessage`: sends a `phx_join`
frame with the next ref. -/
def socketJoinChannel (s : ClientState) (topic : String) :
    Nat × ClientState × List Effect :=
  let p := getNextRef s.refCounter
  (p.1, { s with refCounter := p.2 }, [Effect.send topic "phx_join" p.1])

/-- `LoggerClient::_syncTime`: sends the `time` event on the channel. -/
def syncTime (s : ClientState) : ClientState × List Effect :=
  let r := sendJsonMessage s s.channel "time"
  (r.2.1, r.2.2)

/-- `LoggerClient::joinChannel`: if unjoined and the static `lastJoin`
either is 0 or lies more than `REJOIN_INTERVAL` ms in the past (wrapping
`uint32_t` subtraction), send `phx_join`, record its ref in `_lastRef` and
set `lastJoin = millis()`. -/
def joinChannel (now : Nat) (s : ClientState) : ClientState × List Effect :=
  if s.channelJoined = false ∧
      (wsub32 now s.lastJoin > REJOIN_INTERVAL ∨ s.lastJoin = 0) then
    let r := socketJoinChannel s s.channel
    ({ r.2.1 with lastRef := r.1, lastJoin := now % U32 }, r.2.2)
  else (s, [])

/-- `LoggerClient::tick` together with the outbound half of
`PhoenixSocket::loop`: the loop sends a heartbeat frame whenever
`millis() % 30000 == 0`, then `tick` attempts a join when unjoined and the
transport is connected.  Delivery of inbound frames by the websocket pump
is modelled separately by `handleIncoming`. -/
def tick (now : Nat) (connected : Bool) (s : ClientState) :
    ClientState × List Effect :=
  let hb :=
    if now % U32 % 30000 = 0 then
      let p := getNextRef s.refCounter
      ({ s with refCounter := p.2 }, [Effect.send "phoenix" "heartbeat" p.1])
    else (s, [])
  if hb.1.channelJoined = false ∧ connected = true then
    let r := joinChannel now hb.1
    (r.1, hb.2 ++ r.2)
  else hb

/-- `LoggerClient::getUnix`: when an estimate exists (`_unix != 0`),
re-bases the anchor if more than a day elapsed (carrying the sub-second
remainder `diff % 1000` forward) and returns
`_unix + (millis() - _lastUnix) / 1000` in `uint32_t` arithmetic; when no
estimate exists it returns 0, and if the channel is joined and the 1000 ms
sync cooldown allows, it first issues a `time` sync request itself. -/
def getUnix (now : Nat) (s : ClientState) : Nat × ClientState × List Effect :=
  if s.unix ≠ 0 then
    let diff := wsub32 now s.lastUnix
    let s1 :=
      if diff > ONE_DAY then
        { s with unix := (s.unix + diff / 1000) % U32,
                 lastUnix := wsub32 now (diff % 1000) }
      else s
    ((s1.unix + wsub32 now s1.lastUnix / 1000) % U32, s1, [])
  else
    if s.channelJoined = true ∧
        (s.lastSyncAttempt = 0 ∨ wsub64 (now % U32) s.lastSyncAttempt > 1000) then
      let r := syncTime { s with lastSyncAttempt := now % U32 }
      (0, r.1, r.2)
    else (0, s, [])

/-- `LoggerClient::isChannelJoined`. -/
def isChannelJoined (s : ClientState) : Bool := s.channelJoined

/-- `LoggerClient::_handleReply`: ignores replies on other topics; while
unjoined it accepts a join reply unless the reason is "invalid token", the
`group_id` is not a `uint64`, the `sensors_ids` array is null, or no
after-join callback is registered, in which case it invokes the callback
and sets `_channelJoined`; while joined it treats a `uint32` `timestamp`
as a clock sync, setting `_unix` and `_lastUnix = millis()`. -/
def handleReply (now : Nat) (topic event : String) (resp : Response)
    (s : ClientState) : ClientState × List Effect :=
  if topic ≠ s.channel then (s, [])
  else if s.channelJoined = false then
    if resp.reason = some "invalid token" then (s, [])
    else if resp.groupId = none ∨ resp.sensorsIds = none then (s, [])
    else if s.afterJoinSet = false then (s, [])
    else ({ s with channelJoined := true },
      [Effect.afterJoin (resp.groupId.getD 0) (resp.sensorsIds.getD [])])
  else
    match resp.timestamp with
    | some t => ({ s with unix := t % U32, lastUnix := now % U32 }, [])
    | none => (s, [])

/-- `PhoenixSocket::_handleIncomingMessage` composed with the callbacks the
`LoggerClient` constructor registers (it registers all of them): a JSON
parse failure reports once through the error callback and returns; a parsed
document is forwarded only when both `topic` and `event` are non-null, to
the reply callback (`_handleReply`) when the event is `phx_reply` and to
the generic message callback (`_handleMessage`, which only logs) otherwise. -/
def handleIncoming (now : Nat) (inb : Inbound) (s : ClientState) :
    ClientState × List Effect :=
  match inb with
  | .malformed err => (s, [Effect.error ("JSON parse error: " ++ err)])
  | .frame topic event _ resp =>
    match topic, event with
    | some t, some e =>
      if e = "phx_reply" then
        let r := handleReply now t e resp s
        (r.1, Effect.reply t e :: r.2)
      else (s, [Effect.message t e])
    | some _, none => (s, [])
    | none, _ => (s, [])

/-- Runs `tick` at each time in `ts` in order, threading the state and
concatenating the emitted effects. -/
def runTicks (ts : List Nat) (connected : Bool) (s : ClientState) :
    ClientState × List Effect :=
  match ts with
  | [] => (s, [])
  | t :: rest =>
    let r := tick t connected s
    let r2 := runTicks rest connected r.1
    (r2.1, r.2 ++ r2.2)

/-- Recognises an outbound `phx_join` frame among a step's effects. -/
def isJoinFrame : Effect → Bool
  | .send _ ev _ => ev == "phx_join"
  | _ => false

/-- Number of `phx_join` frames among the effects. -/
def joinCount (effs : List Effect) : Nat := effs.countP isJoinFrame

/-- Socket `_ref_counter` value after `n` sends, starting from the
constructor's `_ref_counter = 0`; each send calls `_getNextRef`. -/
def refAfter : Nat → Nat
  | 0 => 0
  | n + 1 => (getNextRef (refAfter n)).1

/-- The ref stamped into the `k`-th outbound frame of a session (0-indexed):
`_getNextRef` both returns and stores the incremented counter, so the ref
of send `k` is the counter value after `k + 1` increments. -/
def nthRef (k : Nat) : Nat := refAfter (k + 1)

/-- C++ conversion of a `u32_t` value to `int` (two's-complement 32-bit),
as performed by the `(int)sensorReadInterval` cast in
`ESPLogger::setSensorReadInterval`. -/
def toInt32 (v : Nat) : Int :=
  if v % U32 < 2147483648 then (v % U32 : Int) else (v % U32 : Int) - (U32 : Int)

/-- `ESPLogger::setSensorReadInterval`:
`_sensorReadInterval = max(min((int)v, MAX_SENSOR_INTERVAL), MIN_SENSOR_INTERVAL)`,
stored back into the `u32_t` field. -/
def setSensorReadInterval (v : Nat) : Nat :=
  (max (min (toInt32 v) MAX_SENSOR_INTERVAL) MIN_SENSOR_INTERVAL).toNat

/-- The `_sensorReadInterval` field of `ESPLogger`. -/
structure SchedulerState where
  sensorReadInterval : Nat
deriving Repr, DecidableEq

/-- State-passing form of `ESPLogger::setSensorReadInterval`. -/
def setSensorReadIntervalS (v : Nat) (st : SchedulerState) : SchedulerState :=
  { st with sensorReadInterval := setSensorReadInterval v }

/-- `ESPLogger::getSensorReadInterval`. -/
def getSensorReadIntervalS (st : SchedulerState) : Nat :=
  st.sensorReadInterval

/-- A concrete client state used by witnesses and counterexamples: freshly
constructed client for device 1, callback registered, not yet joined. -/
def sampleState : ClientState :=
  { channel := "device:1", joinString := "payload", afterJoinSet := true,
    channelJoined := false, unix := 0, lastUnix := 0, lastRef := 0,
    lastJoin := 0, lastSyncAttempt := 0, refCounter := 0 }

/-- Wrapping `uint32_t` subtraction agrees with `Nat` subtraction when no
wrap occurs. -/
theorem wsub32_eq (a b : Nat) (hb : b ≤ a) (ha : a < U32) : wsub32 a b = a - b := by
  unfold wsub32
  rw [Nat.mod_eq_of_lt ha, Nat.mod_eq_of_lt (lt_of_le_of_lt hb ha)]
  have h : a + U32 - b = (a - b) + U32 := by omega
  rw [h, Nat.add_mod_right]
  exact Nat.mod_eq_of_lt (by omega)

/-- A heartbeat frame is not a `phx_join` frame. -/
theorem isJoinFrame_heartbeat (r : Nat) :
    isJoinFrame (Effect.send "phoenix" "heartbeat" r) = false := rfl

/-- A `phx_join` frame is recognised on any topic. -/
theorem isJoinFrame_join (tp : String) (r : Nat) :
    isJoinFrame (Effect.send tp "phx_join" r) = true := rfl

/-- Join-frame counting distributes over concatenation of effect lists. -/
theorem joinCount_append (a b : List Effect) :
    joinCount (a ++ b) = joinCount a + joinCount b := by
  unfold joinCount
  exact List.countP_append isJoinFrame a b

/-- The socket ref counter after `n` sends equals `n % 2^32`. -/
theorem refAfter_eq (n : Nat) : refAfter n = n % U32 := by
  induction n with
  | zero => rfl
  | succ k ih =>
    simp only [refAfter, getNextRef, ih]
    unfold U32
    omega

/-- C8: a frame that is not valid JSON invokes the error callback exactly
once (with the parse-error text) and mutates no state: the resulting state
is identical and no other callback or send occurs. -/
theorem C8_malformed_one_error_no_mutation (now : Nat) (err : String)
    (s : ClientState) :
    handleIncoming now (Inbound.malformed err) s
      = (s, [Effect.error ("JSON parse error: " ++ err)]) := rfl

/-- C3 counterexample: a valid-JSON frame with a missing `topic` field is
dropped by `_handleIncomingMessage` — no callback is invoked at all (the
effect list is empty, in particular no reply callback with an empty-string
topic), contradicting the claim that such frames are forwarded with empty
strings. -/
theorem C3_counterexample :
    handleIncoming 0 (Inbound.frame none (some "phx_reply") none
        (Response.mk none (some 3) (some ["10"]) none)) sampleState
      = (sampleState, [])
    ∧ Effect.reply "" "phx_reply"
        ∉ (handleIncoming 0 (Inbound.frame none (some "phx_reply") none
            (Response.mk none (some 3) (some ["10"]) none)) sampleState).2 := by
  exact ⟨rfl, by decide⟩

/-- C3 amended: a valid-JSON frame whose `topic` or `event` field is
missing is silently dropped: no callback is invoked and the state is
unchanged (only frames with both fields present are forwarded). -/
theorem C3_missing_field_dropped (now : Nat) (topic event ref : Option String)
    (resp : Response) (s : ClientState)
    (h : topic = none ∨ event = none) :
    handleIncoming now (Inbound.frame topic event ref resp) s = (s, []) := by
  rcases h with h | h
  · subst h; rfl
  · subst h; cases topic <;> rfl

/-- Witness for C3 amended at a concrete dropped frame. -/
theorem C3_missing_field_dropped_witness :
    handleIncoming 0 (Inbound.frame none (some "phx_reply") none
        (Response.mk none none none none)) sampleState = (sampleState, []) :=
  C3_missing_field_dropped 0 none (some "phx_reply") none
    (Response.mk none none none none) sampleState (Or.inl rfl)

/-- C10: the session can become joined only in a step that invokes the
registered after-join callback: with no callback set, a reply received
while unjoined is discarded with no state change (in particular
`isChannelJoined` stays false), and any reply step that turns
`channelJoined` from false to true has the callback set and emits exactly
its invocation. -/
theorem C10_joined_only_with_callback (now : Nat) (tp ev : String)
    (resp : Response) (s : ClientState) :
    (s.channelJoined = false → s.afterJoinSet = false →
      handleReply now tp ev resp s = (s, []))
    ∧ ((handleReply now tp ev resp s).1.channelJoined = true →
        s.channelJoined = false →
        s.afterJoinSet = true ∧
          Effect.afterJoin (resp.groupId.getD 0) (resp.sensorsIds.getD [])
            ∈ (handleReply now tp ev resp s).2) := by
  unfold handleReply
  rcases resp with ⟨reason, gid, sids, tstamp⟩
  cases tstamp <;> split_ifs <;> simp_all

/-- Witness for C10 at a concrete schema-valid reply with no callback set:
the reply is discarded and the state unchanged. -/
theorem C10_joined_only_with_callback_witness :
    handleReply 0 "device:1" "phx_reply"
        (Response.mk none (some 3) (some ["10"]) none)
        { sampleState with afterJoinSet := false }
      = ({ sampleState with afterJoinSet := false }, []) :=
  (C10_joined_only_with_callback 0 "device:1" "phx_reply"
      (Response.mk none (some 3) (some ["10"]) none)
      { sampleState with afterJoinSet := false }).1 rfl rfl

/-- C4 counterexample: `getUnix` is not a pure computation — called while
joined with no clock estimate and the sync cooldown open, it itself sends
a `time` sync request through the socket (consuming ref 1), contradicting
the claim that it never sends any request or outbound frame. -/
theorem C4_counterexample :
    (getUnix 500 { sampleState with channelJoined := true }).2.2
      = [Effect.send "device:1" "time" 1] := by decide

/-- C4 amended: `getUnix` returns 0 whenever no estimate exists and sends
nothing once an estimate exists (or when unjoined with no estimate); but
while joined with no estimate and the 1000 ms sync cooldown elapsed, the
call itself sends one `time` sync request. -/
theorem C4_getUnix_behavior (now : Nat) (s : ClientState) :
    ((s.unix = 0 → (getUnix now s).1 = 0)
    ∧ (s.unix ≠ 0 → (getUnix now s).2.2 = []))
    ∧ ((s.unix = 0 → s.channelJoined = false → getUnix now s = (0, s, []))
    ∧ (s.unix = 0 → s.channelJoined = true →
        (s.lastSyncAttempt = 0 ∨ wsub64 (now % U32) s.lastSyncAttempt > 1000) →
        (getUnix now s).2.2
          = [Effect.send s.channel "time" ((s.refCounter + 1) % U32)])) := by
  unfold getUnix syncTime sendJsonMessage getNextRef
  split_ifs <;> simp_all

/-- Witness for C4 amended: with an estimate present, a concrete call
sends nothing. -/
theorem C4_getUnix_behavior_witness :
    (getUnix 500 { sampleState with unix := 5 }).2.2 = [] :=
  (C4_getUnix_behavior 500 { sampleState with unix := 5 }).1.2 (by decide)

/-- C9 counterexample: `setSensorReadInterval 2147483648` stores 10, not
the clamp `min (max 2147483648 10) 1800 = 1800`: the `(int)` cast in the
source wraps values at and above 2^31 to negative before clamping. -/
theorem C9_counterexample :
    setSensorReadInterval 2147483648 = 10
    ∧ min (max 2147483648 10) 1800 = 1800
    ∧ (10 : Nat) ≠ 1800 := by
  refine ⟨by decide, by norm_num, by norm_num⟩

/-- C9 amended: for every value below 2^31 (non-negative as a C `int`),
setting the sensor poll interval silently stores exactly the clamp of `v`
to `[10, 1800]` and the getter returns that clamped value; larger values
are first wrapped by the `(int)` cast. -/
theorem C9_clamp_below_2pow31 (v : Nat) (hv : v < 2147483648)
    (st : SchedulerState) :
    getSensorReadIntervalS (setSensorReadIntervalS v st) = min (max v 10) 1800 := by
  unfold getSensorReadIntervalS setSensorReadIntervalS setSensorReadInterval
    toInt32 MAX_SENSOR_INTERVAL MIN_SENSOR_INTERVAL U32
  rw [Nat.mod_eq_of_lt (by omega), if_pos (by exact_mod_cast hv)]
  simp only [min_def, max_def]
  split_ifs <;> omega

/-- Witness for C9 amended: setting 5 stores the clamped value 10. -/
theorem C9_clamp_below_2pow31_witness :
    5 < 2147483648
    ∧ getSensorReadIntervalS (setSensorReadIntervalS 5 ⟨0⟩) = min (max 5 10) 1800 :=
  ⟨by norm_num, C9_clamp_below_2pow31 5 (by norm_num) ⟨0⟩⟩

/-- C1 counterexample: with pending join ref 7, a reply whose wire ref is
"99" and whose `sensors_ids` array has length 0 (while 2 sensors are
configured) still fires the after-join callback and joins the session:
`_handleReply` checks neither the reply ref against `_lastRef` nor the
array length, contradicting the claim's guard. -/
theorem C1_counterexample :
    let s0 := { sampleState with lastRef := 7 }
    let r := handleIncoming 0 (Inbound.frame (some "device:1")
        (some "phx_reply") (some "99")
        (Response.mk none (some 3) (some []) none)) s0
    Effect.afterJoin 3 [] ∈ r.2 ∧ r.1.channelJoined = true
      ∧ s0.lastRef = 7 ∧ (some "99" : Option String) ≠ some "7"
      ∧ ([] : List String).length ≠ 2 := by decide

/-- C1 amended: while unjoined, a reply on the channel topic whose
response has reason other than "invalid token", a `uint64` `group_id` and
a non-null `sensors_ids` array, with an after-join callback registered,
joins the session and invokes the callback exactly once; the reply ref and
the array length are not checked.  While joined, no reply ever invokes the
after-join callback again, so it fires at most once per joined period. -/
theorem C1_join_callback_once (now : Nat) (ev : String) (resp : Response)
    (s : ClientState) (g : Nat) (ids : List String)
    (hr : resp.reason ≠ some "invalid token")
    (hg : resp.groupId = some g)
    (hi : resp.sensorsIds = some ids)
    (hcb : s.afterJoinSet = true) :
    (s.channelJoined = false →
      handleReply now s.channel ev resp s
        = ({ s with channelJoined := true }, [Effect.afterJoin g ids]))
    ∧ (s.channelJoined = true →
        ∀ g2 ids2, Effect.afterJoin g2 ids2
          ∉ (handleReply now s.channel ev resp s).2) := by
  unfold handleReply
  rcases resp with ⟨reason, gid, sids, tstamp⟩
  cases tstamp <;> split_ifs <;> simp_all

/-- Witness for C1 amended at the spec's example reply (group 7, two
sensor ids) against a fresh unjoined client. -/
theorem C1_join_callback_once_witness :
    handleReply 0 sampleState.channel "phx_reply"
        (Response.mk none (some 7) (some ["10", "11"]) none) sampleState
      = ({ sampleState with channelJoined := true },
         [Effect.afterJoin 7 ["10", "11"]]) :=
  (C1_join_callback_once 0 "phx_reply"
      (Response.mk none (some 7) (some ["10", "11"]) none) sampleState 7
      ["10", "11"] (by decide) rfl rfl rfl).1 rfl

/-- C2 counterexample: after a join reply with reason "invalid token" the
client does not enter any terminal state — a later `tick` past the
cooldown sends a fresh `phx_join` frame automatically, contradicting the
claim that no further `phx_join` is ever sent until an external reset. -/
theorem C2_counterexample :
    let s0 := { sampleState with lastJoin := 100 }
    let s1 := (handleIncoming 0 (Inbound.frame (some "device:1")
        (some "phx_reply") none
        (Response.mk (some "invalid token") none none none)) s0).1
    Effect.send "device:1" "phx_join" 1 ∈ (tick 5101 true s1).2 := by decide

/-- C2 amended: an "invalid token" join reply leaves the client state
completely unchanged (no after-join invocation, no rejected flag — only
the socket's reply routing fires), and the client keeps auto-retrying:
any later tick while unjoined and connected with the cooldown elapsed
sends another `phx_join` frame. -/
theorem C2_invalid_token_no_terminal (now now2 : Nat) (r : Option String)
    (resp : Response) (s : ClientState)
    (hj : s.channelJoined = false)
    (hr : resp.reason = some "invalid token")
    (hcool : wsub32 now2 s.lastJoin > REJOIN_INTERVAL ∨ s.lastJoin = 0)
    (hhb : now2 % U32 % 30000 ≠ 0) :
    handleIncoming now
        (Inbound.frame (some s.channel) (some "phx_reply") r resp) s
      = (s, [Effect.reply s.channel "phx_reply"])
    ∧ (tick now2 true s).2
      = [Effect.send s.channel "phx_join" ((s.refCounter + 1) % U32)] := by
  constructor
  · unfold handleIncoming handleReply
    simp [hj, hr]
  · unfold tick joinChannel socketJoinChannel getNextRef
    rw [if_neg hhb]
    simp [hj, hcool]

/-- Inside an open cooldown window (`lastJoin` non-zero and at most
`REJOIN_INTERVAL` ms in the past) `joinChannel` is a no-op. -/
theorem joinChannel_skip (t : Nat) (s : ClientState)
    (hL : s.lastJoin ≠ 0) (hw : wsub32 t s.lastJoin ≤ REJOIN_INTERVAL) :
    joinChannel t s = (s, []) := by
  unfold joinChannel
  split_ifs with h
  · exfalso
    rcases h with ⟨-, h | h⟩
    · omega
    · exact hL h
  · rfl

/-- While unjoined with the cooldown elapsed (or no attempt yet recorded)
`joinChannel` sends one `phx_join` and records the attempt time. -/
theorem joinChannel_send (t : Nat) (s : ClientState)
    (hj : s.channelJoined = false)
    (hcool : wsub32 t s.lastJoin > REJOIN_INTERVAL ∨ s.lastJoin = 0) :
    joinChannel t s
      = ({ s with
            lastRef := (s.refCounter + 1) % U32,
            lastJoin := t % U32,
            refCounter := (s.refCounter + 1) % U32 },
         [Effect.send s.channel "phx_join" ((s.refCounter + 1) % U32)]) := by
  unfold joinChannel socketJoinChannel getNextRef
  rw [if_pos ⟨hj, hcool⟩]

/-- Within one open cooldown window, a `tick` sends no `phx_join` and
leaves the joined flag and `lastJoin` unchanged, whatever the heartbeat
timer and connection status do. -/
theorem tick_no_join (t : Nat) (c : Bool) (s : ClientState)
    (hj : s.channelJoined = false) (hL : s.lastJoin ≠ 0)
    (hw : wsub32 t s.lastJoin ≤ REJOIN_INTERVAL) :
    joinCount (tick t c s).2 = 0
    ∧ (tick t c s).1.channelJoined = false
    ∧ (tick t c s).1.lastJoin = s.lastJoin := by
  simp only [tick, getNextRef]
  by_cases hhb : t % U32 % 30000 = 0
  · rw [if_pos hhb]
    dsimp only
    cases c
    · simp [hj, joinCount, isJoinFrame_heartbeat, List.countP_cons,
        List.countP_nil]
    · rw [if_pos ⟨hj, rfl⟩,
        joinChannel_skip t { s with refCounter := (s.refCounter + 1) % U32 }
          hL hw]
      simp [hj, joinCount, isJoinFrame_heartbeat, List.countP_cons,
        List.countP_nil]
  · rw [if_neg hhb]
    dsimp only
    cases c
    · simp [hj, joinCount]
    · rw [if_pos ⟨hj, rfl⟩, joinChannel_skip t s hL hw]
      simp [hj, joinCount]

/-- Iterating `tick` over times that all fall inside the open cooldown
window sends no `phx_join` at all and preserves the window. -/
theorem runTicks_no_join (ts : List Nat) (c : Bool) (s : ClientState)
    (hj : s.channelJoined = false) (hL : s.lastJoin ≠ 0)
    (hwin : ∀ t ∈ ts, wsub32 t s.lastJoin ≤ REJOIN_INTERVAL) :
    joinCount (runTicks ts c s).2 = 0
    ∧ (runTicks ts c s).1.channelJoined = false
    ∧ (runTicks ts c s).1.lastJoin = s.lastJoin := by
  induction ts generalizing s with
  | nil => simp [runTicks, joinCount, hj]
  | cons t rest ih =>
    have h1 := tick_no_join t c s hj hL (hwin t (List.mem_cons_self t rest))
    have h2 := ih (tick t c s).1 h1.2.1 (by rw [h1.2.2]; exact hL)
      (by rw [h1.2.2]; exact fun u hu => hwin u (List.mem_cons_of_mem t hu))
    simp only [runTicks]
    rw [joinCount_append, h1.1, h2.1, h2.2.1, h2.2.2, h1.2.2]
    exact ⟨rfl, rfl, rfl⟩

/-- A `tick` while unjoined, connected, with the cooldown elapsed (or no
attempt yet recorded) sends exactly one `phx_join` and records the attempt
time in `lastJoin`. -/
theorem tick_join (t : Nat) (s : ClientState)
    (hj : s.channelJoined = false)
    (hcool : wsub32 t s.lastJoin > REJOIN_INTERVAL ∨ s.lastJoin = 0) :
    joinCount (tick t true s).2 = 1
    ∧ (tick t true s).1.channelJoined = false
    ∧ (tick t true s).1.lastJoin = t % U32 := by
  simp only [tick, getNextRef]
  by_cases hhb : t % U32 % 30000 = 0
  · rw [if_pos hhb]
    dsimp only
    rw [if_pos ⟨hj, trivial⟩,
      joinChannel_send t { s with refCounter := (s.refCounter + 1) % U32 }
        hj hcool]
    simp [hj, joinCount, isJoinFrame_heartbeat, isJoinFrame_join,
      List.countP_cons, List.countP_nil]
  · rw [if_neg hhb]
    dsimp only
    rw [if_pos ⟨hj, trivial⟩, joinChannel_send t s hj hcool]
    simp [hj, joinCount, isJoinFrame_join, List.countP_cons, List.countP_nil]

/-- Witness for C2 amended: a concrete invalid-token reply followed by a
tick at 5101 ms (cooldown of the attempt at 100 ms elapsed). -/
theorem C2_invalid_token_no_terminal_witness :
    handleIncoming 0 (Inbound.frame (some "device:1") (some "phx_reply") none
        (Response.mk (some "invalid token") none none none))
        { sampleState with lastJoin := 100 }
      = ({ sampleState with lastJoin := 100 },
         [Effect.reply "device:1" "phx_reply"])
    ∧ (tick 5101 true { sampleState with lastJoin := 100 }).2
      = [Effect.send "device:1" "phx_join" 1] :=
  C2_invalid_token_no_terminal 0 5101 none
    (Response.mk (some "invalid token") none none none)
    { sampleState with lastJoin := 100 } rfl rfl (by decide) (by decide)

/-- C6 counterexample: two consecutive `tick` calls at monotonic time 0,
unjoined and connected (trivially within one cooldown window), send two
`phx_join` frames, not one: `joinChannel` uses `lastJoin == 0` as its
"never attempted" sentinel, so an attempt recorded at `millis() == 0` does
not close the window. -/
theorem C6_counterexample :
    joinCount (runTicks [0, 0] true sampleState).2 = 2 ∧ (2 : Nat) ≠ 1 := by
  exact ⟨by decide, by decide⟩

/-- C6 amended: while unjoined and connected, a run of ticks whose first
tick happens at a non-zero `uint32` time `t0` with the cooldown open, and
whose remaining ticks all lie within `REJOIN_INTERVAL` ms of `t0`, sends
exactly one `phx_join` frame, regardless of how many ticks occur (the
time-0 sentinel excepted, which is what the counterexample exploits). -/
theorem C6_one_join_per_window (s : ClientState) (t0 : Nat) (ts : List Nat)
    (hj : s.channelJoined = false)
    (h0 : t0 % U32 ≠ 0)
    (hcool : wsub32 t0 s.lastJoin > REJOIN_INTERVAL ∨ s.lastJoin = 0)
    (hwin : ∀ t ∈ ts, wsub32 t (t0 % U32) ≤ REJOIN_INTERVAL) :
    joinCount (runTicks (t0 :: ts) true s).2 = 1 := by
  have h1 := tick_join t0 s hj hcool
  have h2 := runTicks_no_join ts true (tick t0 true s).1 h1.2.1
    (by rw [h1.2.2]; exact h0) (by rw [h1.2.2]; exact hwin)
  simp only [runTicks]
  rw [joinCount_append, h1.1, h2.1]

/-- Witness for C6 amended at the spec's scenario: 100 consecutive ticks
(at times 10, 11, ..., 109) within one cooldown window while unjoined send
exactly one `phx_join` frame. -/
theorem C6_one_join_per_window_witness :
    joinCount
      (runTicks (10 :: (List.range 99).map (fun k => 11 + k)) true
        sampleState).2 = 1 :=
  C6_one_join_per_window sampleState 10 ((List.range 99).map (fun k => 11 + k))
    rfl (by decide) (Or.inr rfl) (by decide)

/-- C7 counterexample: the session's refs are not strictly increasing over
its whole lifetime: the first send is stamped ref 1 while send number
2^32 (index 4294967295) is stamped ref 0, because `_ref_counter` is a
`uint32_t` and `++_ref_counter` wraps. -/
theorem C7_counterexample :
    nthRef 0 = 1 ∧ nthRef 4294967295 = 0 ∧ (0 : Nat) < 4294967295
    ∧ ¬ nthRef 0 < nthRef 4294967295 := by
  have h1 : nthRef 0 = 1 := rfl
  have h2 : nthRef 4294967295 = 0 := by
    unfold nthRef
    rw [refAfter_eq]
    unfold U32
    norm_num
  refine ⟨h1, h2, by norm_num, ?_⟩
  rw [h1, h2]
  omega

/-- C7 amended: the refs stamped onto a session's outbound frames (every
join, event and heartbeat send draws from `_getNextRef`) are strictly
increasing and never repeat among the session's first 2^32 - 1 sends;
beyond that the `uint32_t` counter wraps to 0. -/
theorem C7_refs_strictly_increasing (i j : Nat) (hij : i < j)
    (hj : j < U32 - 1) :
    nthRef i < nthRef j := by
  unfold nthRef
  rw [refAfter_eq, refAfter_eq]
  unfold U32 at *
  omega

/-- Witness for C7 amended: the second send's ref exceeds the first's. -/
theorem C7_refs_strictly_increasing_witness : nthRef 0 < nthRef 1 :=
  C7_refs_strictly_increasing 0 1 (by norm_num) (by decide)

/-- C5: with a synced estimate `S` anchored at monotonic time `T`, a
`getUnix` call at `T + d` returns `(S + d / 1000) % 2^32` and sends
nothing — whether or not the one-day re-basing branch runs, since the
re-base carries the sub-second remainder `d % 1000` forward into the new
anchor instead of truncating it (applying this theorem again to the
re-based state shows no error ever accumulates). -/
theorem C5_clock_formula (S T d : Nat) (s : ClientState)
    (hS : s.unix = S) (hS0 : S ≠ 0) (hT : s.lastUnix = T)
    (hTd : T + d < U32) :
    (getUnix (T + d) s).1 = (S + d / 1000) % U32
    ∧ (getUnix (T + d) s).2.2 = [] := by
  subst hS
  subst hT
  have hd : d < U32 := by omega
  have hlu : s.lastUnix < U32 := by omega
  have hdiff : wsub32 (s.lastUnix + d) s.lastUnix = d := by
    rw [wsub32_eq _ _ (Nat.le_add_right _ _) hTd, Nat.add_sub_cancel_left]
  have hrem : d % 1000 < 1000 := Nat.mod_lt _ (by norm_num)
  simp only [getUnix, hdiff]
  rw [if_pos hS0]
  by_cases hday : d > ONE_DAY
  · rw [if_pos hday]
    dsimp only
    have hreb : wsub32 (s.lastUnix + d) (d % 1000) = s.lastUnix + (d - d % 1000) := by
      rw [wsub32_eq _ _ (by omega) hTd]
      omega
    rw [hreb]
    have hback : wsub32 (s.lastUnix + d) (s.lastUnix + (d - d % 1000)) = d % 1000 := by
      rw [wsub32_eq _ _ (by omega) hTd]
      omega
    rw [hback, Nat.div_eq_of_lt hrem, Nat.add_zero,
      Nat.mod_mod_of_dvd _ dvd_rfl]
    exact ⟨rfl, rfl⟩
  · rw [if_neg hday]
    dsimp only
    rw [hdiff]
    exact ⟨rfl, rfl⟩

/-- Witness for C5 at the spec's scenario: timestamp 1700000000 anchored
at T = 1000 ms; `getUnix` at 6000 ms (5000 ms later) returns 1700000005. -/
theorem C5_clock_formula_witness :
    (getUnix 6000
        { sampleState with unix := 1700000000, lastUnix := 1000 }).1
      = 1700000005 :=
  (C5_clock_formula 1700000000 1000 5000
      { sampleState with unix := 1700000000, lastUnix := 1000 }
      rfl (by norm_num) rfl (by decide)).1

end Logger
